import Mathlib

/-!
Verification of the resilient, resumable paginated data-fetcher of the
streamlit-demo repository (source of truth: `src/Visualization.py`, with the
near-identical revision `src/test.py` for the resuming entry point).

The Python code is shallowly embedded: each relevant Python function becomes a
Lean definition of the same name; the `while` loops of the paginator become
fuel-indexed structural recursions (a `none` outcome means the loop did not
return within the given fuel, which is how non-termination is observed); the
file-backed progress store becomes explicit state passing over an optional
JSON value; Python exceptions become `Except`/`Option` results.
-/

namespace StreamlitDemo

/-! ## Constants (src/Visualization.py lines 29-32) -/

/-- MAX_RETRIES = 30 -/
def MAX_RETRIES : Nat := 30

/-- INITIAL_RETRY_DELAY = 5 (seconds), as a rational for the backoff arithmetic. -/
def INITIAL_RETRY_DELAY : ℚ := 5

/-- MAX_RETRY_DELAY = 300 (seconds). -/
def MAX_RETRY_DELAY : ℚ := 300

/-! ## Backoff Policy (src/Visualization.py lines 68-73, `exponential_backoff`)

The Python coroutine computes `delay = min(MAX_RETRY_DELAY, INITIAL_RETRY_DELAY
* (2 ** attempt))`, draws `jitter = random.uniform(0, 0.1 * delay)` and sleeps
for `delay + jitter`.  The drawn jitter is modelled as an explicit argument
constrained to the interval the code draws from. -/

/-- Pre-jitter delay of `exponential_backoff`:
`min(MAX_RETRY_DELAY, INITIAL_RETRY_DELAY * (2 ** attempt))`. -/
def backoff_delay (attempt : Nat) : ℚ :=
  min MAX_RETRY_DELAY (INITIAL_RETRY_DELAY * 2 ^ attempt)

/-- Total sleep duration of `exponential_backoff`: `delay + jitter` where
`jitter` was drawn from `[0, 0.1 * delay]`. -/
def exponential_backoff (attempt : Nat) (jitter : ℚ) : ℚ :=
  backoff_delay attempt + jitter

/-! ## Retrying Request Executor (src/Visualization.py lines 75-93, `smart_retry`)

`smart_retry` loops `for attempt in range(MAX_RETRIES)`, calling the wrapped
operation; a raised exception (classified 504 / 429 / other client response
error / timeout / unexpected) is logged and always followed by one
`exponential_backoff` sleep, after which the next attempt starts.  Falling off
the loop raises `Exception("Failed after ... retries")`.

One attempt of the wrapped operation is modelled as `Except FailureKind α`;
`FailureKind` mirrors the exception classes the Python code distinguishes
(only for log severity — every kind is retried identically). -/

/-- Failure classification of one attempt, mirroring the `except` arms of
`smart_retry`. -/
inductive FailureKind : Type where
  | gatewayTimeout : FailureKind
  | rateLimit : FailureKind
  | clientError (status : Nat) : FailureKind
  | timeout : FailureKind
  | unexpected : FailureKind
deriving DecidableEq

/-- Outcome of `smart_retry`: either the wrapped call's value together with the
number of attempts used and backoff sleeps performed, or the final
`Exception("Failed after ... retries")` with the total attempts and sleeps. -/
inductive RetryOutcome (α : Type) : Type where
  | ok (val : α) (attempts : Nat) (sleeps : Nat) : RetryOutcome α
  | exhausted (attempts : Nat) (sleeps : Nat) : RetryOutcome α
deriving DecidableEq

/-- Loop of `smart_retry`, recursing on the remaining iterations of
`range(MAX_RETRIES)`; `attempt` and `sleeps` count the attempts made and
backoff sleeps performed so far. -/
def smartRetryAux (op : Nat → Except FailureKind α) :
    Nat → Nat → Nat → RetryOutcome α
  | 0, attempt, sleeps => .exhausted attempt sleeps
  | remaining + 1, attempt, sleeps =>
    match op attempt with
    | .ok v => .ok v (attempt + 1) sleeps
    | .error _ => smartRetryAux op remaining (attempt + 1) (sleeps + 1)

/-- `smart_retry(func, ...)`: run up to `maxRetries` attempts of `op` (the
attempt index is passed so a stub can vary by attempt, as the Python closure
can observe global state). -/
def smart_retry (maxRetries : Nat) (op : Nat → Except FailureKind α) :
    RetryOutcome α :=
  smartRetryAux op maxRetries 0 0

/-! ## Single request (src/Visualization.py lines 166-198, `fetch`)

The whole body of `fetch` that can raise — `session.request`,
`raise_for_status`, reading headers and the body — sits inside one
`try ... except Exception: return None`.  The possible outcomes of the
underlying HTTP interaction are modelled by `HttpOutcome`; `fetch` maps each
outcome to the value the Python function returns.  Its codomain is `Option α`:
by construction no exception escapes. -/

/-- Outcome of the underlying HTTP call inside `fetch`. -/
inductive HttpOutcome (α : Type) : Type where
  | jsonSuccess (payload : α) : HttpOutcome α
  | nonJsonSuccess : HttpOutcome α
  | errorStatus (code : Nat) : HttpOutcome α
  | netError : HttpOutcome α
deriving DecidableEq

/-- `fetch`: a 2xx JSON response returns the parsed payload; a 2xx non-JSON
response returns `None` (after `st.error`); an error status makes
`raise_for_status` raise, caught by the `except` arm returning `None`; any
transport exception is likewise caught and returns `None`. -/
def fetch (outcome : HttpOutcome α) : Option α :=
  match outcome with
  | .jsonSuccess payload => some payload
  | .nonJsonSuccess => none
  | .errorStatus _ => none
  | .netError => none

/-! ## Progress Store (src/Visualization.py lines 95-114)

`save_progress` opens `progress.json` with mode `'w'` (truncating) and
`json.dump`s the checkpoint dict; `load_progress` returns the parsed file when
it exists, else the default dict; `clear_progress_and_regenerate` removes the
file.  The file system is modelled as the file's contents: `Option Json`
(`none` = the file does not exist).  A minimal JSON value type suffices for
the shapes the checkpoint dict uses. -/

/-- Minimal JSON value covering the checkpoint dict's shape. -/
inductive Json : Type where
  | null : Json
  | str (s : String) : Json
  | nat (n : Nat) : Json
  | arr (elems : List Json) : Json
  | obj (fields : List (String × Json)) : Json

/-- Progress checkpoint: the dict
`{start_cursor: ..., total_retrieved: ..., queried_page_ids: [...]}`. -/
structure Checkpoint (ι κ : Type) : Type where
  start_cursor : Option κ
  total_retrieved : Nat
  queried_page_ids : List ι
deriving DecidableEq

/-- Default checkpoint returned by `load_progress` when the file is absent:
`{'start_cursor': None, 'total_retrieved': 0, 'queried_page_ids': []}`. -/
def defaultProgress : Checkpoint ι κ :=
  ⟨none, 0, []⟩

/-- JSON encoding performed by `json.dump` on the checkpoint dict (ids and
cursors are strings on the wire). -/
def encodeProgress (ck : Checkpoint String String) : Json :=
  .obj [("start_cursor", match ck.start_cursor with
          | none => .null
          | some c => .str c),
        ("total_retrieved", .nat ck.total_retrieved),
        ("queried_page_ids", .arr (ck.queried_page_ids.map Json.str))]

/-- Decode a JSON array of strings. -/
def decodeStrings : List Json → Option (List String)
  | [] => some []
  | .str s :: rest => (decodeStrings rest).map (fun l => s :: l)
  | _ => none

/-- Decode the checkpoint dict from the shape `json.dump` wrote. -/
def decodeProgress : Json → Option (Checkpoint String String)
  | .obj [("start_cursor", c), ("total_retrieved", .nat n),
          ("queried_page_ids", .arr ids)] =>
    match c, decodeStrings ids with
    | .null, some l => some ⟨none, n, l⟩
    | .str s, some l => some ⟨some s, n, l⟩
    | _, _ => none
  | _ => none

/-- `load_progress()`: parse the file when it exists, else the default dict
(returned here in encoded form so that the function is a map on file states). -/
def load_progress (file : Option Json) : Json :=
  match file with
  | some j => j
  | none => encodeProgress defaultProgress

/-- `save_progress(progress)`: rewrite the whole file (mode `'w'`) with the
encoded checkpoint; the previous contents are discarded, not appended to. -/
def save_progress (ck : Checkpoint String String) (_file : Option Json) :
    Option Json :=
  some (encodeProgress ck)

/-- File effect of `clear_progress_and_regenerate()`: remove the file (the
streamlit session-state resets are out of scope). -/
def clear_progress_and_regenerate (_file : Option Json) : Option Json :=
  none

/-! ## Paginator, inner loop (src/Visualization.py lines 200-260, `get_notion_data`)

Record ids and continuation cursors are opaque strings in the source; the
embedding is generic over an id type `ι` (with decidable equality, matching
`page['id'] not in queried_page_ids`) and a cursor type `κ`.

The remote side is a pure stub `Option κ → Option (QueryResponse ι κ)`: the
combined result of `smart_retry(self.fetch, ...)` for a query at a given
cursor.  Since `fetch` never raises (see `fetch` above), `smart_retry` returns
`fetch`'s result on the first attempt, so a stub value of `none` covers both a
failed request (`fetch` returned `None`) and a falsy (empty-dict) response;
the `except` arm of the pagination loop is unreachable.

The `while has_more` loop becomes a fuel-indexed recursion.  The first
component of the result is `none` exactly when the loop did not return within
`fuel` iterations.  The second component is the chronological list of
`save_progress` writes the loop performed, each paired with the value of the
local `results` list at the moment of the write (a ghost observation used to
state the checkpoint invariant). -/

/-- A fetched record; the pagination logic reads only `page['id']`. -/
structure Page (ι : Type) : Type where
  id : ι
deriving DecidableEq

/-- Parsed body of one successful query response:
`{results: [...], has_more: bool, next_cursor: ...}` (absent `has_more`
defaults to `False`, absent `next_cursor` to `None`, via `.get`). -/
structure QueryResponse (ι κ : Type) : Type where
  results : List (Page ι)
  has_more : Bool
  next_cursor : Option κ

/-- Value returned by `get_notion_data`:
`{'results': ..., 'total_retrieved': ..., 'queried_page_ids': ...,
'start_cursor': ...}`. -/
structure GndResult (ι κ : Type) : Type where
  results : List (Page ι)
  total_retrieved : Nat
  queried_page_ids : List ι
  start_cursor : Option κ
deriving DecidableEq

variable {ι κ : Type} [DecidableEq ι]

/-- The `while has_more` loop of `get_notion_data`, carrying the loop state
`(start_cursor, results, page_count, queried_page_ids)`.  The Python
`queried_page_ids` is a set; it is carried as a list whose membership is the
set's (duplicates can only arise from one response carrying the same new id
twice, in which case only membership is consulted downstream). -/
def get_notion_data (stub : Option κ → Option (QueryResponse ι κ)) :
    Nat → Option κ → List (Page ι) → Nat → List ι →
    Option (GndResult ι κ) × List (Checkpoint ι κ × List (Page ι))
  | 0, _, _, _, _ => (none, [])
  | fuel + 1, cursor, results, pageCount, seen =>
    match stub cursor with
    | none =>
      -- `if response:` is falsy: `has_more = False`, the loop exits.
      (some ⟨results, pageCount, seen, cursor⟩, [])
    | some resp =>
      let newResults := resp.results.filter (fun p => ¬ p.id ∈ seen)
      if newResults.isEmpty then
        -- Stagnation arm: advance the cursor when one is offered, else break.
        match resp.next_cursor with
        | none => (some ⟨results, pageCount, seen, none⟩, [])
        | some c => get_notion_data stub fuel (some c) results pageCount seen
      else
        let pageCount' := pageCount + newResults.length
        let results' := results ++ newResults
        let seen' := seen ++ newResults.map Page.id
        let ck : Checkpoint ι κ := ⟨resp.next_cursor, pageCount', seen'⟩
        if resp.has_more then
          let rest := get_notion_data stub fuel resp.next_cursor results'
            pageCount' seen'
          (rest.1, (ck, results') :: rest.2)
        else
          (some ⟨results', pageCount', seen', resp.next_cursor⟩,
            [(ck, results')])

/-! ## Paginator, outer loop (src/Visualization.py lines 325-363,
`generate_visualization`; src/test.py lines 282-323 for the revision that
resumes from the stored checkpoint)

The outer `while total_retrieved < page_limit` loop calls `get_notion_data`,
extends `all_results`, breaks when the retrieved count did not change since
the previous outer iteration, writes a checkpoint, and breaks when the cursor
is gone or the page limit is reached.  `page_limit` is the literal 600.  The
result is `none` when either the inner loop or the outer loop failed to
finish within its fuel (the Python run would still be looping). -/

/-- Final state of `generate_visualization`'s fetching phase. -/
structure GvResult (ι κ : Type) : Type where
  all_results : List (Page ι)
  total_retrieved : Nat
  queried_page_ids : List ι
  start_cursor : Option κ
deriving DecidableEq

/-- Page limit of the outer loop (`page_limit = 600`). -/
def page_limit : Nat := 600

/-- The outer loop of `generate_visualization`; `lastTotal` is
`last_total_retrieved`.  Checkpoint writes are again returned chronologically,
paired with the running `all_results` list at the moment of the write; the
inner loop's writes are re-based onto `all_results` (the records the run as a
whole has merged when the inner write happens). -/
def generate_visualization_loop
    (stub : Option κ → Option (QueryResponse ι κ)) (innerFuel : Nat) :
    Nat → Option κ → List (Page ι) → Nat → List ι → Nat →
    Option (GvResult ι κ) × List (Checkpoint ι κ × List (Page ι))
  | 0, _, _, _, _, _ => (none, [])
  | outerFuel + 1, cursor, allResults, total, seen, lastTotal =>
    if total < page_limit then
      match get_notion_data stub innerFuel cursor [] total seen with
      | (none, innerTrace) =>
        -- The inner loop never returned; the run is still inside it.
        (none, innerTrace.map (fun e => (e.1, allResults ++ e.2)))
      | (some r, innerTrace) =>
        let trace := innerTrace.map (fun e => (e.1, allResults ++ e.2))
        let allResults' := allResults ++ r.results
        let total' := r.total_retrieved
        let seen' := r.queried_page_ids
        let cursor' := r.start_cursor
        if total' = lastTotal then
          (some ⟨allResults', total', seen', cursor'⟩, trace)
        else
          let ck : Checkpoint ι κ := ⟨cursor', total', seen'⟩
          if cursor'.isNone ∨ page_limit ≤ total' then
            (some ⟨allResults', total', seen', cursor'⟩,
              trace ++ [(ck, allResults')])
          else
            let rest := generate_visualization_loop stub innerFuel outerFuel
              cursor' allResults' total' seen' total'
            (rest.1, trace ++ [(ck, allResults')] ++ rest.2)
    else
      (some ⟨allResults, total, seen, cursor⟩, [])

/-- `generate_visualization` of src/Visualization.py: always starts fresh
(`start_cursor = None`, `total_retrieved = 0`, `queried_page_ids = set()`,
`last_total_retrieved = 0`). -/
def generate_visualization
    (stub : Option κ → Option (QueryResponse ι κ))
    (innerFuel outerFuel : Nat) :
    Option (GvResult ι κ) × List (Checkpoint ι κ × List (Page ι)) :=
  generate_visualization_loop stub innerFuel outerFuel none [] 0 [] 0

/-- `generate_visualization` of src/test.py: identical loop, but the starting
cursor, count and id set are read from the stored checkpoint
(`progress = load_progress()`). -/
def generate_visualization_resume
    (stub : Option κ → Option (QueryResponse ι κ))
    (innerFuel outerFuel : Nat) (ck : Checkpoint ι κ) :
    Option (GvResult ι κ) × List (Checkpoint ι κ × List (Page ι)) :=
  generate_visualization_loop stub innerFuel outerFuel ck.start_cursor []
    ck.total_retrieved ck.queried_page_ids 0

/-! ## Aggregator (src/Visualization.py lines 262-292, `get_page_name` and
`process_data`)

`process_data` walks `data['results']`; for each record it reads the
`'Parent Hab'` relation and the `'Total min Par'` formula number (defaulting
to 0 via chained `.get`).  Records with a non-empty relation contribute a
lookup task `get_page_name(session, parent_id)`; records without one are
written into the dict under their own `Name` title with plain assignment.
After `asyncio.gather`, every resolved parent name receives `+= total_mins` —
where `total_mins` is whatever the *last* loop iteration left in that
variable.  Finally the dict's items are sorted by value, descending (Python's
sort is stable).  Records are modelled concretely over string ids/names. -/

/-- Shape of a parent page as `get_page_name` inspects it.  `titled l` holds
the `plain_text` of each element of `properties['Name']['title']`; `noName`
also covers a present-but-guarded missing key, and an absent or empty `title`
array is `titled []` (the code would then raise on `['title'][0]`). -/
inductive PageData : Type where
  | noProperties : PageData
  | noName : PageData
  | titled (plainTexts : List String) : PageData

/-- `get_page_name`: returns the parent's first title text only when the
guard passes and that text contains a `'*'` character; a failed fetch or a
guarded malformed shape yields `"Unknown"`; a `title` that is absent or an
empty array escapes the guard's short-circuit and raises (KeyError /
IndexError), modelled as `Except.error`. -/
def get_page_name (fetched : Option PageData) : Except Unit String :=
  match fetched with
  | none => .ok "Unknown"
  | some .noProperties => .ok "Unknown"
  | some .noName => .ok "Unknown"
  | some (.titled []) => .error ()
  | some (.titled (t :: _)) =>
    if t.data.contains '*' then .ok t else .ok "Unknown"

/-- One record of `data['results']` as `process_data` reads it. -/
structure HabitRecord : Type where
  id : String
  name : String
  parent : Option String
  total_min_par : Int
deriving DecidableEq

/-- Python dict as an insertion-ordered association list:
`categories[k] = v` (plain assignment). -/
def dictSet (d : List (String × Int)) (k : String) (v : Int) :
    List (String × Int) :=
  if d.any (fun p => p.1 == k) then
    d.map (fun p => if p.1 == k then (k, v) else p)
  else d ++ [(k, v)]

/-- Python `if k not in categories: categories[k] = 0` followed by
`categories[k] += v`. -/
def dictAdd (d : List (String × Int)) (k : String) (v : Int) :
    List (String × Int) :=
  if d.any (fun p => p.1 == k) then
    d.map (fun p => if p.1 == k then (p.1, p.2 + v) else p)
  else d ++ [(k, v)]

/-- First pass of `process_data`: build the category dict from relation-free
records (keyed by their own name, assignment semantics) and collect the
parent ids of the lookup tasks, in record order. -/
def processPass1 : List HabitRecord → List (String × Int) → List String →
    List (String × Int) × List String
  | [], cats, tasks => (cats, tasks)
  | r :: rest, cats, tasks =>
    match r.parent with
    | some pid => processPass1 rest cats (tasks ++ [pid])
    | none => processPass1 rest (dictSet cats r.name r.total_min_par) tasks

/-- Value of the Python local `total_mins` after the first loop: the measure
of the last record (when there are no records the variable stays unbound, but
then no parent name is resolved and it is never read — the default 0 is
inert). -/
def lastTotalMins (records : List HabitRecord) : Int :=
  match records.getLast? with
  | some r => r.total_min_par
  | none => 0

/-- `asyncio.gather` over the `get_page_name` tasks: the list of resolved
names, or the propagated exception of a failed lookup. -/
def gatherNames (lookup : String → Option PageData) :
    List String → Except Unit (List String)
  | [] => .ok []
  | pid :: rest =>
    match get_page_name (lookup pid) with
    | .error e => .error e
    | .ok n => (gatherNames lookup rest).map (fun l => n :: l)

/-- Second pass of `process_data`: `categories[parent_name] += total_mins`
for every resolved name, with the stale `total_mins` value `tm`. -/
def processPass2 (tm : Int) : List String → List (String × Int) →
    List (String × Int)
  | [], cats => cats
  | n :: rest, cats => processPass2 tm rest (dictAdd cats n tm)

/-- Stable insertion of one entry into a list sorted by value, descending;
an equal value keeps the inserted (originally earlier) entry in front,
matching the stability of Python's `sorted(..., reverse=True)`. -/
def insertDesc (x : String × Int) : List (String × Int) →
    List (String × Int)
  | [] => [x]
  | y :: ys => if y.2 ≤ x.2 then x :: y :: ys else y :: insertDesc x ys

/-- `sorted(categories.items(), key=lambda x: x[1], reverse=True)`. -/
def sortDesc : List (String × Int) → List (String × Int)
  | [] => []
  | x :: xs => insertDesc x (sortDesc xs)

/-- `process_data`: the rows (category, total) of the returned DataFrame, or
the exception propagated out of a parent lookup. -/
def process_data (lookup : String → Option PageData)
    (records : List HabitRecord) : Except Unit (List (String × Int)) :=
  let p1 := processPass1 records [] []
  match gatherNames lookup p1.2 with
  | .error e => .error e
  | .ok names =>
    .ok (sortDesc (processPass2 (lastTotalMins records) names p1.1))

/-! ## Concrete remote stubs and inputs used by individual scenarios -/

/-- Remote stub yielding unlimited unique records: the query at cursor `k`
(initial cursor counts as 0) returns five fresh record ids `5k .. 5k+4`,
`has_more = True` and the next cursor `k+1`. -/
def c1_stub : Option Nat → Option (QueryResponse Nat Nat) :=
  fun c =>
    let k := c.getD 0
    some ⟨[⟨5 * k⟩, ⟨5 * k + 1⟩, ⟨5 * k + 2⟩, ⟨5 * k + 3⟩, ⟨5 * k + 4⟩],
      true, some (k + 1)⟩

/-- Remote stub that always answers with zero records but a valid next
cursor. -/
def c2_stub : Option Nat → Option (QueryResponse Nat Nat) :=
  fun c => some ⟨[], true, some (c.getD 0 + 1)⟩

/-- Finite remote stub whose second and third pages replay already-delivered
ids (2, then 1 and 3). -/
def c5_stub : Option Nat → Option (QueryResponse Nat Nat)
  | none => some ⟨[⟨1⟩, ⟨2⟩], true, some 1⟩
  | some 1 => some ⟨[⟨2⟩, ⟨3⟩], true, some 2⟩
  | some 2 => some ⟨[⟨1⟩, ⟨3⟩], false, none⟩
  | some _ => some ⟨[], false, none⟩

/-- Finite two-page remote stub: records 1-5 with next cursor 11, then
records 6-10 with no further page. -/
def c6_stub : Option Nat → Option (QueryResponse Nat Nat)
  | none => some ⟨[⟨1⟩, ⟨2⟩, ⟨3⟩, ⟨4⟩, ⟨5⟩], true, some 11⟩
  | some 11 => some ⟨[⟨6⟩, ⟨7⟩, ⟨8⟩, ⟨9⟩, ⟨10⟩], false, none⟩
  | some _ => some ⟨[], false, none⟩

/-- Parent lookup for the aggregation scenario: the single parent page `pX`
is titled `X` (the record `category:"X"` of the scenario). -/
def c7_lookup : String → Option PageData :=
  fun pid => if pid == "pX" then some (.titled ["X"]) else none

/-- The records of the aggregation scenario:
`[(id a, category X, measure 10), (id b, category X, measure 5),
(id c, no category, measure 3)]`. -/
def c7_records : List HabitRecord :=
  [⟨"a", "a", some "pX", 10⟩, ⟨"b", "b", some "pX", 5⟩,
   ⟨"c", "c", none, 3⟩]

/-- Parent lookup with two distinct parent pages whose titles contain no
star. -/
def c10_lookup : String → Option PageData :=
  fun pid =>
    if pid == "p1" then some (.titled ["Category A"])
    else some (.titled ["Category B"])

/-- Two records with distinct real categories (via `c10_lookup`) and measures
10 and 3. -/
def c10_records : List HabitRecord :=
  [⟨"r1", "r1", some "p1", 10⟩, ⟨"r2", "r2", some "p2", 3⟩]

/-! ## Theorems -/

/-! ### Unfolding lemmas for the pagination loops -/

theorem get_notion_data_zero (stub : Option κ → Option (QueryResponse ι κ))
    (cursor : Option κ) (results : List (Page ι)) (pageCount : Nat)
    (seen : List ι) :
    get_notion_data stub 0 cursor results pageCount seen = (none, []) := rfl

theorem get_notion_data_falsy (stub : Option κ → Option (QueryResponse ι κ))
    (fuel : Nat) (cursor : Option κ) (results : List (Page ι))
    (pageCount : Nat) (seen : List ι) (h : stub cursor = none) :
    get_notion_data stub (fuel + 1) cursor results pageCount seen =
      (some ⟨results, pageCount, seen, cursor⟩, []) := by
  simp [get_notion_data, h]

theorem get_notion_data_stagnant_break
    (stub : Option κ → Option (QueryResponse ι κ)) (fuel : Nat)
    (cursor : Option κ) (results : List (Page ι)) (pageCount : Nat)
    (seen : List ι) (resp : QueryResponse ι κ) (h : stub cursor = some resp)
    (hempty : resp.results.filter (fun p => ¬ p.id ∈ seen) = [])
    (hcur : resp.next_cursor = none) :
    get_notion_data stub (fuel + 1) cursor results pageCount seen =
      (some ⟨results, pageCount, seen, none⟩, []) := by
  simp only [get_notion_data, h, hempty, hcur, List.isEmpty_nil, if_true]

theorem get_notion_data_stagnant_cont
    (stub : Option κ → Option (QueryResponse ι κ)) (fuel : Nat)
    (cursor : Option κ) (results : List (Page ι)) (pageCount : Nat)
    (seen : List ι) (resp : QueryResponse ι κ) (c : κ)
    (h : stub cursor = some resp)
    (hempty : resp.results.filter (fun p => ¬ p.id ∈ seen) = [])
    (hcur : resp.next_cursor = some c) :
    get_notion_data stub (fuel + 1) cursor results pageCount seen =
      get_notion_data stub fuel (some c) results pageCount seen := by
  simp only [get_notion_data, h, hempty, hcur, List.isEmpty_nil, if_true]

theorem get_notion_data_merge_more
    (stub : Option κ → Option (QueryResponse ι κ)) (fuel : Nat)
    (cursor : Option κ) (results : List (Page ι)) (pageCount : Nat)
    (seen : List ι) (resp : QueryResponse ι κ) (h : stub cursor = some resp)
    (hne : resp.results.filter (fun p => ¬ p.id ∈ seen) ≠ [])
    (hmore : resp.has_more = true) :
    get_notion_data stub (fuel + 1) cursor results pageCount seen =
      (let newResults := resp.results.filter (fun p => ¬ p.id ∈ seen)
       let rest := get_notion_data stub fuel resp.next_cursor
         (results ++ newResults) (pageCount + newResults.length)
         (seen ++ newResults.map Page.id)
       (rest.1,
        (⟨resp.next_cursor, pageCount + newResults.length,
          seen ++ newResults.map Page.id⟩, results ++ newResults) :: rest.2)) := by
  simp only [get_notion_data, h, List.isEmpty_iff, hne, if_false, hmore,
    if_true]

theorem get_notion_data_merge_last
    (stub : Option κ → Option (QueryResponse ι κ)) (fuel : Nat)
    (cursor : Option κ) (results : List (Page ι)) (pageCount : Nat)
    (seen : List ι) (resp : QueryResponse ι κ) (h : stub cursor = some resp)
    (hne : resp.results.filter (fun p => ¬ p.id ∈ seen) ≠ [])
    (hmore : resp.has_more = false) :
    get_notion_data stub (fuel + 1) cursor results pageCount seen =
      (let newResults := resp.results.filter (fun p => ¬ p.id ∈ seen)
       (some ⟨results ++ newResults, pageCount + newResults.length,
          seen ++ newResults.map Page.id, resp.next_cursor⟩,
        [(⟨resp.next_cursor, pageCount + newResults.length,
           seen ++ newResults.map Page.id⟩, results ++ newResults)])) := by
  simp only [get_notion_data, h, List.isEmpty_iff, hne, if_false, hmore,
    Bool.false_eq_true]

/-! ### Progress store round trip -/

/-- Round trip of the store's wire format. -/
theorem decodeProgress_encodeProgress (ck : Checkpoint String String) :
    decodeProgress (encodeProgress ck) = some ck := by
  obtain ⟨c, n, ids⟩ := ck
  have h : decodeStrings (ids.map Json.str) = some ids := by
    induction ids with
    | nil => rfl
    | cons a l ih => simp [decodeStrings, ih]
  cases c <;> simp [encodeProgress, decodeProgress, h]

/-! ### Claim C2 -/

/-- Claim C2 (code bug): a remote stub that always returns zero new records
but a valid next cursor makes the inner pagination loop of `get_notion_data`
spin forever — for every fuel bound the loop has neither returned nor written
a checkpoint, so the Paginator does not terminate within any bounded number
of iterations and never reaches the outer loop's stagnation guard. -/
theorem stagnation_never_terminates :
    ∀ (fuel : Nat) (cursor : Option Nat) (results : List (Page Nat))
      (pageCount : Nat) (seen : List Nat),
      get_notion_data c2_stub fuel cursor results pageCount seen =
        (none, []) := by
  intro fuel
  induction fuel with
  | zero => intro cursor results pageCount seen; rfl
  | succ n ih =>
    intro cursor results pageCount seen
    rw [get_notion_data_stagnant_cont c2_stub n cursor results pageCount seen
      ⟨[], true, some (cursor.getD 0 + 1)⟩ (cursor.getD 0 + 1) rfl rfl rfl]
    exact ih _ _ _ _

/-! ### Claim C3 -/

/-- When every attempt fails, the retry loop uses all its iterations,
sleeping once after each failure. -/
theorem smartRetryAux_all_fail {α : Type} (op : Nat → Except FailureKind α)
    (h : ∀ k, ∃ e, op k = .error e) :
    ∀ (n attempt sleeps : Nat),
      smartRetryAux op n attempt sleeps =
        .exhausted (attempt + n) (sleeps + n) := by
  intro n
  induction n with
  | zero => intro a s; simp [smartRetryAux]
  | succ n ih =>
    intro a s
    obtain ⟨e, he⟩ := h a
    simp only [smartRetryAux, he]
    rw [ih]
    congr 1 <;> omega

/-- Claim C3 (amended): for every operation that fails on every attempt,
`smart_retry` performs exactly `max_attempts` attempts and then fails with
the retries-exhausted error, with exactly `max_attempts` backoff sleeps
observed (the loop sleeps after every failure, the final one included). -/
theorem smart_retry_exhaustion {α : Type} (m : Nat)
    (op : Nat → Except FailureKind α) (h : ∀ k, ∃ e, op k = .error e) :
    smart_retry m op = .exhausted m m := by
  unfold smart_retry
  rw [smartRetryAux_all_fail op h]
  simp

/-- Witness for `smart_retry_exhaustion` at the source's `MAX_RETRIES` and an
operation that always raises the rate-limit failure. -/
theorem smart_retry_exhaustion_witness :
    smart_retry MAX_RETRIES
      (fun _ => (Except.error FailureKind.rateLimit : Except FailureKind Nat)) =
      RetryOutcome.exhausted 30 30 :=
  smart_retry_exhaustion MAX_RETRIES _ (fun _ => ⟨FailureKind.rateLimit, rfl⟩)

/-- Counterexample to claim C3 as stated: with `MAX_RETRIES = 30` attempts
all failing with a rate-limit error, 30 backoff sleeps are observed, not
`MAX_RETRIES - 1 = 29`. -/
theorem smart_retry_sleep_count_counterexample :
    smart_retry MAX_RETRIES
      (fun _ => (Except.error FailureKind.rateLimit : Except FailureKind Nat)) =
      RetryOutcome.exhausted 30 30 ∧
    RetryOutcome.exhausted 30 30 ≠
      (RetryOutcome.exhausted MAX_RETRIES (MAX_RETRIES - 1) :
        RetryOutcome Nat) := by
  exact ⟨rfl, by decide⟩

/-! ### Claim C4 -/

/-- Claim C4: `fetch` catches every failure of the underlying HTTP
interaction internally — its result is the parsed payload on a JSON success
and `none` on every other outcome, in particular on every error status
(429, 502, 504, ...); consequently `smart_retry` around `fetch` sees a
normally-returned `none`, succeeds on the first attempt and performs zero
retries and zero backoff sleeps. -/
theorem fetch_no_exception_propagation {α : Type} :
    (∀ o : HttpOutcome α,
      fetch o = none ∨ ∃ p, o = .jsonSuccess p ∧ fetch o = some p) ∧
    (∀ code : Nat,
      fetch (HttpOutcome.errorStatus code : HttpOutcome α) = none) ∧
    (∀ code : Nat,
      smart_retry MAX_RETRIES
        (fun _ =>
          Except.ok (fetch (HttpOutcome.errorStatus code : HttpOutcome α))) =
        RetryOutcome.ok none 1 0) := by
  refine ⟨?_, fun _ => rfl, fun _ => rfl⟩
  intro o
  cases o with
  | jsonSuccess p => exact Or.inr ⟨p, rfl, rfl⟩
  | nonJsonSuccess => exact Or.inl rfl
  | errorStatus code => exact Or.inl rfl
  | netError => exact Or.inl rfl

/-! ### Claim C7 -/

/-- Claim C7 (code bug): on the spec's concrete three-record input the code
yields `[("Unknown", 6), ("c", 3)]`, not `[("X", 15), ("Uncategorized", 3)]`:
the parent title `X` contains no star so both referenced records resolve to
`Unknown`; each resolved reference adds the stale `total_mins` of the *last*
record (3) instead of its own measure; and the relation-free record is keyed
by its own name with plain assignment, not an `Uncategorized` bucket. -/
theorem process_data_aggregation_divergence :
    process_data c7_lookup c7_records = .ok [("Unknown", 6), ("c", 3)] ∧
    ([("Unknown", 6), ("c", 3)] : List (String × Int)) ≠
      [("X", 15), ("Uncategorized", 3)] := by
  exact ⟨rfl, by decide⟩

/-! ### Claim C8 -/

/-- Claim C8: for every attempt count and every jitter drawn from
`[0, 0.1 * delay]`, the backoff delay lies between `INITIAL_RETRY_DELAY` and
`MAX_RETRY_DELAY * 1.1`, its pre-jitter part being exactly
`min(MAX_RETRY_DELAY, INITIAL_RETRY_DELAY * 2 ^ attempt)`; in particular it
is never negative. -/
theorem exponential_backoff_bound (a : Nat) (j : ℚ)
    (h0 : 0 ≤ j) (h1 : j ≤ (1 / 10) * backoff_delay a) :
    backoff_delay a = min MAX_RETRY_DELAY (INITIAL_RETRY_DELAY * 2 ^ a) ∧
    INITIAL_RETRY_DELAY ≤ exponential_backoff a j ∧
    exponential_backoff a j ≤ MAX_RETRY_DELAY * (11 / 10) ∧
    0 ≤ exponential_backoff a j := by
  have h2 : (1 : ℚ) ≤ 2 ^ a := one_le_pow₀ (by norm_num)
  have hlo : INITIAL_RETRY_DELAY ≤ backoff_delay a := by
    unfold backoff_delay INITIAL_RETRY_DELAY MAX_RETRY_DELAY
    refine le_min (by norm_num) ?_
    nlinarith
  have hhi : backoff_delay a ≤ MAX_RETRY_DELAY := min_le_left _ _
  have hini : (0 : ℚ) < INITIAL_RETRY_DELAY := by norm_num [INITIAL_RETRY_DELAY]
  have hmax : MAX_RETRY_DELAY = (300 : ℚ) := rfl
  refine ⟨rfl, ?_, ?_, ?_⟩
  · unfold exponential_backoff; linarith
  · unfold exponential_backoff
    rw [hmax] at hhi ⊢
    linarith
  · unfold exponential_backoff; linarith

/-- Witness for `exponential_backoff_bound` at attempt 0 with zero jitter. -/
theorem exponential_backoff_bound_witness :
    backoff_delay 0 = min MAX_RETRY_DELAY (INITIAL_RETRY_DELAY * 2 ^ 0) ∧
    INITIAL_RETRY_DELAY ≤ exponential_backoff 0 0 ∧
    exponential_backoff 0 0 ≤ MAX_RETRY_DELAY * (11 / 10) ∧
    0 ≤ exponential_backoff 0 0 :=
  exponential_backoff_bound 0 0 le_rfl
    (by norm_num [backoff_delay, INITIAL_RETRY_DELAY, MAX_RETRY_DELAY])

/-! ### Claim C9 -/

/-- Claim C9: the progress store's contract — loading with no saved file
yields the default checkpoint (no cursor, zero retrieved, empty id list);
loading right after `save_progress ck` yields exactly `ck` (the file is
wholly replaced, its previous contents discarded); loading right after
clearing yields the default checkpoint again. -/
theorem progress_store_contract :
    (load_progress none =
        encodeProgress (defaultProgress : Checkpoint String String) ∧
      decodeProgress (load_progress none) =
        some (defaultProgress : Checkpoint String String)) ∧
    (∀ (ck : Checkpoint String String) (file : Option Json),
      load_progress (save_progress ck file) = encodeProgress ck ∧
      decodeProgress (load_progress (save_progress ck file)) = some ck) ∧
    (∀ file : Option Json,
      load_progress (clear_progress_and_regenerate file) =
        encodeProgress (defaultProgress : Checkpoint String String)) :=
  by
  refine ⟨⟨rfl, ?_⟩, fun ck _ => ⟨rfl, ?_⟩, fun _ => rfl⟩
  · simp only [load_progress]
    exact decodeProgress_encodeProgress _
  · simp only [load_progress, save_progress]
    exact decodeProgress_encodeProgress ck

/-! ### Claim C1 -/

/-- Invariant run of the inner loop against the unlimited stub: from any
state whose seen ids all predate the cursor's page, the loop merges five
fresh records per iteration, writes a checkpoint each time, and never
returns. -/
theorem c1_aux :
    ∀ (fuel : Nat) (c : Option Nat) (res : List (Page Nat)) (pc : Nat)
      (seen : List Nat),
      (∀ m ∈ seen, m < 5 * c.getD 0) →
      (get_notion_data c1_stub fuel c res pc seen).1 = none ∧
      (get_notion_data c1_stub fuel c res pc seen).2.map
          (fun e => e.1.total_retrieved) =
        (List.range fuel).map (fun i => pc + 5 * (i + 1)) := by
  intro fuel
  induction fuel with
  | zero => intro c res pc seen hseen; exact ⟨rfl, rfl⟩
  | succ n ih =>
    intro c res pc seen hseen
    have hstub : c1_stub c =
        some ⟨[⟨5 * c.getD 0⟩, ⟨5 * c.getD 0 + 1⟩, ⟨5 * c.getD 0 + 2⟩,
          ⟨5 * c.getD 0 + 3⟩, ⟨5 * c.getD 0 + 4⟩], true,
          some (c.getD 0 + 1)⟩ := rfl
    have hfil : ([⟨5 * c.getD 0⟩, ⟨5 * c.getD 0 + 1⟩, ⟨5 * c.getD 0 + 2⟩,
          ⟨5 * c.getD 0 + 3⟩, ⟨5 * c.getD 0 + 4⟩] : List (Page Nat)).filter
          (fun p => ¬ p.id ∈ seen) =
        [⟨5 * c.getD 0⟩, ⟨5 * c.getD 0 + 1⟩, ⟨5 * c.getD 0 + 2⟩,
          ⟨5 * c.getD 0 + 3⟩, ⟨5 * c.getD 0 + 4⟩] := by
      apply List.filter_eq_self.mpr
      intro p hp
      simp only [List.mem_cons, List.not_mem_nil, or_false] at hp
      simp only [decide_eq_true_eq]
      intro hmem
      have hlt := hseen _ hmem
      rcases hp with rfl | rfl | rfl | rfl | rfl <;> dsimp only at hlt <;>
        omega
    rw [get_notion_data_merge_more c1_stub n c res pc seen _ hstub
      (by rw [hfil]; simp) rfl]
    simp only [hfil]
    have hinv : ∀ m ∈ seen ++ ([⟨5 * c.getD 0⟩, ⟨5 * c.getD 0 + 1⟩,
        ⟨5 * c.getD 0 + 2⟩, ⟨5 * c.getD 0 + 3⟩,
        ⟨5 * c.getD 0 + 4⟩] : List (Page Nat)).map Page.id,
        m < 5 * (some (c.getD 0 + 1) : Option Nat).getD 0 := by
      intro m hm
      simp only [List.map_cons, List.map_nil, List.mem_append,
        List.mem_cons, List.not_mem_nil, or_false, Option.getD_some] at hm ⊢
      rcases hm with hm | hm
      · have := hseen _ hm; omega
      · rcases hm with rfl | rfl | rfl | rfl | rfl <;> omega
    obtain ⟨ih1, ih2⟩ := ih (some (c.getD 0 + 1)) (res ++ [⟨5 * c.getD 0⟩,
      ⟨5 * c.getD 0 + 1⟩, ⟨5 * c.getD 0 + 2⟩, ⟨5 * c.getD 0 + 3⟩,
      ⟨5 * c.getD 0 + 4⟩]) (pc + ([⟨5 * c.getD 0⟩, ⟨5 * c.getD 0 + 1⟩,
      ⟨5 * c.getD 0 + 2⟩, ⟨5 * c.getD 0 + 3⟩,
      ⟨5 * c.getD 0 + 4⟩] : List (Page Nat)).length) _ hinv
    simp only [List.map_cons, List.map_nil, List.length_cons,
      List.length_nil] at ih1 ih2 ⊢
    refine ⟨ih1, ?_⟩
    rw [ih2, List.range_succ_eq_map, List.map_cons, List.map_map]
    simp only [List.cons.injEq]
    refine ⟨by trivial, ?_⟩
    apply List.map_congr_left
    intro i _
    simp only [Function.comp_apply]
    omega

/-- Claim C1 (code bug): against a remote stub yielding unlimited unique
records (page size 5), the inner fetch loop of `get_notion_data` never
checks the page limit: it never returns for any fuel bound, and within 121
iterations it has written a checkpoint whose `total_retrieved` is 605,
strictly beyond the outer loop's `page_limit` of 600 — the Paginator does
not stop at exactly 600. -/
theorem page_limit_not_enforced :
    (∀ fuel : Nat, (get_notion_data c1_stub fuel none [] 0 []).1 = none) ∧
    ((get_notion_data c1_stub 121 none [] 0 []).2.map
        (fun e => e.1.total_retrieved)).getLast? = some 605 ∧
    page_limit < 605 := by
  have key : ∀ fuel : Nat,
      (get_notion_data c1_stub fuel none [] 0 []).1 = none ∧
      (get_notion_data c1_stub fuel none [] 0 []).2.map
          (fun e => e.1.total_retrieved) =
        (List.range fuel).map (fun i => 0 + 5 * (i + 1)) :=
    fun fuel => c1_aux fuel none [] 0 [] (by simp)
  refine ⟨fun fuel => (key fuel).1, ?_, by norm_num [page_limit]⟩
  rw [(key 121).2, List.range_succ, List.map_append]
  simp

/-! ### Claim C5 -/

/-- Loop invariant of `get_notion_data`: relative to the records `P` merged
before this session and the session's own accumulator `res`, every checkpoint
write and the final return satisfy the dedup bookkeeping, provided every
remote page has pairwise-distinct ids. -/
theorem gnd_invariant (stub : Option κ → Option (QueryResponse ι κ))
    (hstub : ∀ c r, stub c = some r → (r.results.map Page.id).Nodup)
    (P : List (Page ι)) :
    ∀ (fuel : Nat) (cursor : Option κ) (res : List (Page ι)) (pc : Nat)
      (seen : List ι),
      pc = (P ++ res).length →
      ((P ++ res).map Page.id).Nodup →
      (∀ p ∈ P ++ res, p.id ∈ seen) →
      (∀ e ∈ (get_notion_data stub fuel cursor res pc seen).2,
        e.1.total_retrieved = (P ++ e.2).length ∧
        ((P ++ e.2).map Page.id).Nodup ∧
        (∀ p ∈ P ++ e.2, p.id ∈ e.1.queried_page_ids)) ∧
      (∀ r, (get_notion_data stub fuel cursor res pc seen).1 = some r →
        r.total_retrieved = (P ++ r.results).length ∧
        ((P ++ r.results).map Page.id).Nodup ∧
        (∀ p ∈ P ++ r.results, p.id ∈ r.queried_page_ids)) := by
  intro fuel
  induction fuel with
  | zero =>
    intro cursor res pc seen hpc hnd hmem
    exact ⟨fun e he => absurd he (List.not_mem_nil e), fun r hr => by cases hr⟩
  | succ n ih =>
    intro cursor res pc seen hpc hnd hmem
    cases hc : stub cursor with
    | none =>
      rw [get_notion_data_falsy stub n cursor res pc seen hc]
      refine ⟨fun e he => absurd he (List.not_mem_nil e), fun r hr => ?_⟩
      cases hr
      exact ⟨hpc, hnd, hmem⟩
    | some resp =>
      by_cases hemp : resp.results.filter (fun p => ¬ p.id ∈ seen) = []
      · cases hnc : resp.next_cursor with
        | none =>
          rw [get_notion_data_stagnant_break stub n cursor res pc seen resp
            hc hemp hnc]
          refine ⟨fun e he => absurd he (List.not_mem_nil e), fun r hr => ?_⟩
          cases hr
          exact ⟨hpc, hnd, hmem⟩
        | some c =>
          rw [get_notion_data_stagnant_cont stub n cursor res pc seen resp c
            hc hemp hnc]
          exact ih (some c) res pc seen hpc hnd hmem
      · -- a page with new records is merged
        have hndNew : ((resp.results.filter
            (fun p => ¬ p.id ∈ seen)).map Page.id).Nodup :=
          ((List.filter_sublist _).map Page.id).nodup (hstub _ _ hc)
        have hnewNotSeen : ∀ p ∈ resp.results.filter
            (fun p => ¬ p.id ∈ seen), ¬ p.id ∈ seen := by
          intro p hp
          have := List.of_mem_filter hp
          simpa using this
        have hnd' : ((P ++ (res ++ resp.results.filter
            (fun p => ¬ p.id ∈ seen))).map Page.id).Nodup := by
          rw [← List.append_assoc, List.map_append, List.nodup_append]
          refine ⟨hnd, hndNew, ?_⟩
          intro a ha hb
          simp only [List.mem_map] at ha hb
          obtain ⟨p, hp, rfl⟩ := ha
          obtain ⟨q, hq, hqa⟩ := hb
          exact hnewNotSeen q hq (hqa ▸ hmem p hp)
        have hmem' : ∀ p ∈ P ++ (res ++ resp.results.filter
            (fun p => ¬ p.id ∈ seen)),
            p.id ∈ seen ++ (resp.results.filter
              (fun p => ¬ p.id ∈ seen)).map Page.id := by
          intro p hp
          rw [← List.append_assoc] at hp
          rcases List.mem_append.mp hp with hp | hp
          · exact List.mem_append.mpr (Or.inl (hmem p hp))
          · exact List.mem_append.mpr (Or.inr (List.mem_map_of_mem _ hp))
        have hpc' : pc + (resp.results.filter
            (fun p => ¬ p.id ∈ seen)).length =
            (P ++ (res ++ resp.results.filter
              (fun p => ¬ p.id ∈ seen))).length := by
          simp only [hpc, List.length_append]
          omega
        cases hmore : resp.has_more with
        | true =>
          rw [get_notion_data_merge_more stub n cursor res pc seen resp hc
            hemp hmore]
          obtain ⟨ihtr, ihres⟩ := ih resp.next_cursor _ _ _ hpc' hnd' hmem'
          refine ⟨?_, ihres⟩
          intro e he
          rcases List.mem_cons.mp he with rfl | he
          · exact ⟨hpc', hnd', hmem'⟩
          · exact ihtr e he
        | false =>
          rw [get_notion_data_merge_last stub n cursor res pc seen resp hc
            hemp hmore]
          refine ⟨?_, ?_⟩
          · intro e he
            rcases List.mem_cons.mp he with rfl | he
            · exact ⟨hpc', hnd', hmem'⟩
            · exact absurd he (List.not_mem_nil e)
          · intro r hr
            cases hr
            exact ⟨hpc', hnd', hmem'⟩

/-- Claim C5: at every checkpoint write of a pagination session (`P` being
the records merged before the session, empty for a fresh run, with their ids
already in `seen0`), the written checkpoint's id set contains the id of every
record in the running record list `P ++ snapshot`, no two merged records
share an id even when pages replay overlapping ids, and `total_retrieved`
equals the running record list's length.  The hypothesis on the stub is the
data model's guarantee that ids are unique within one delivered page. -/
theorem checkpoint_dedup_invariant
    (stub : Option κ → Option (QueryResponse ι κ))
    (hstub : ∀ c r, stub c = some r → (r.results.map Page.id).Nodup)
    (fuel : Nat) (cursor : Option κ) (P : List (Page ι)) (seen0 : List ι)
    (hP : (P.map Page.id).Nodup) (hseen : ∀ p ∈ P, p.id ∈ seen0) :
    ∀ e ∈ (get_notion_data stub fuel cursor [] P.length seen0).2,
      e.1.total_retrieved = (P ++ e.2).length ∧
      ((P ++ e.2).map Page.id).Nodup ∧
      (∀ p ∈ P ++ e.2, p.id ∈ e.1.queried_page_ids) :=
  (gnd_invariant stub hstub P fuel cursor [] P.length seen0 (by simp)
    (by simpa) (by simpa)).1

/-- Witness for `checkpoint_dedup_invariant`: the first checkpoint written
against the replaying stub `c5_stub` on a fresh run records two retrieved
records, their ids 1 and 2 are distinct, and id 1 is in the checkpoint's id
set. -/
theorem checkpoint_dedup_invariant_witness :
    ((⟨some 1, 2, [1, 2]⟩ : Checkpoint Nat Nat).total_retrieved =
        (([] : List (Page Nat)) ++ ([⟨1⟩, ⟨2⟩] : List (Page Nat))).length ∧
      (((([] : List (Page Nat)) ++
          ([⟨1⟩, ⟨2⟩] : List (Page Nat))).map Page.id).Nodup)) ∧
    (⟨1⟩ : Page Nat).id ∈
      (⟨some 1, 2, [1, 2]⟩ : Checkpoint Nat Nat).queried_page_ids := by
  have hstub : ∀ (c : Option Nat) (r : QueryResponse Nat Nat),
      c5_stub c = some r → (r.results.map Page.id).Nodup := by
    intro c r h
    rcases c with _ | n
    · cases h; decide
    · match n with
      | 0 => cases h; decide
      | 1 => cases h; decide
      | 2 => cases h; decide
      | (m + 3) => cases h; decide
  have happ := checkpoint_dedup_invariant c5_stub hstub 10 none [] []
    (by simp) (by simp)
    ((⟨some 1, 2, [1, 2]⟩, [⟨1⟩, ⟨2⟩]) : Checkpoint Nat Nat × List (Page Nat))
    (by decide)
  exact ⟨⟨happ.1, happ.2.1⟩, happ.2.2 ⟨1⟩ (by decide)⟩

/-! ### Claim C6 -/

/-- The session id set only grows during a pagination session. -/
theorem gnd_seen_mono (stub : Option κ → Option (QueryResponse ι κ)) :
    ∀ (fuel : Nat) (cursor : Option κ) (res : List (Page ι)) (pc : Nat)
      (seen : List ι) (r : GndResult ι κ),
      (get_notion_data stub fuel cursor res pc seen).1 = some r →
      ∀ i ∈ seen, i ∈ r.queried_page_ids := by
  intro fuel
  induction fuel with
  | zero => intro cursor res pc seen r hr; cases hr
  | succ n ih =>
    intro cursor res pc seen r hr
    cases hc : stub cursor with
    | none =>
      rw [get_notion_data_falsy stub n cursor res pc seen hc] at hr
      cases hr
      exact fun i hi => hi
    | some resp =>
      by_cases hemp : resp.results.filter (fun p => ¬ p.id ∈ seen) = []
      · cases hnc : resp.next_cursor with
        | none =>
          rw [get_notion_data_stagnant_break stub n cursor res pc seen resp
            hc hemp hnc] at hr
          cases hr
          exact fun i hi => hi
        | some c =>
          rw [get_notion_data_stagnant_cont stub n cursor res pc seen resp c
            hc hemp hnc] at hr
          exact ih (some c) res pc seen r hr
      · cases hmore : resp.has_more with
        | true =>
          rw [get_notion_data_merge_more stub n cursor res pc seen resp hc
            hemp hmore] at hr
          have := ih resp.next_cursor _ _ _ r hr
          intro i hi
          exact this i (List.mem_append.mpr (Or.inl hi))
        | false =>
          rw [get_notion_data_merge_last stub n cursor res pc seen resp hc
            hemp hmore] at hr
          cases hr
          exact fun i hi => List.mem_append.mpr (Or.inl hi)

/-- Every record in a session result either was already in the session
accumulator or carries an id outside the starting seen set. -/
theorem gnd_results_new (stub : Option κ → Option (QueryResponse ι κ)) :
    ∀ (fuel : Nat) (cursor : Option κ) (res : List (Page ι)) (pc : Nat)
      (seen : List ι) (r : GndResult ι κ),
      (get_notion_data stub fuel cursor res pc seen).1 = some r →
      ∀ p ∈ r.results, p ∈ res ∨ ¬ p.id ∈ seen := by
  intro fuel
  induction fuel with
  | zero => intro cursor res pc seen r hr; cases hr
  | succ n ih =>
    intro cursor res pc seen r hr
    cases hc : stub cursor with
    | none =>
      rw [get_notion_data_falsy stub n cursor res pc seen hc] at hr
      cases hr
      exact fun p hp => Or.inl hp
    | some resp =>
      by_cases hemp : resp.results.filter (fun p => ¬ p.id ∈ seen) = []
      · cases hnc : resp.next_cursor with
        | none =>
          rw [get_notion_data_stagnant_break stub n cursor res pc seen resp
            hc hemp hnc] at hr
          cases hr
          exact fun p hp => Or.inl hp
        | some c =>
          rw [get_notion_data_stagnant_cont stub n cursor res pc seen resp c
            hc hemp hnc] at hr
          exact ih (some c) res pc seen r hr
      · have hnewNotSeen : ∀ p ∈ resp.results.filter
            (fun p => ¬ p.id ∈ seen), ¬ p.id ∈ seen := by
          intro p hp
          have := List.of_mem_filter hp
          simpa using this
        cases hmore : resp.has_more with
        | true =>
          rw [get_notion_data_merge_more stub n cursor res pc seen resp hc
            hemp hmore] at hr
          have hrec := ih resp.next_cursor _ _ _ r hr
          intro p hp
          rcases hrec p hp with hacc | hns
          · rcases List.mem_append.mp hacc with hres | hnew
            · exact Or.inl hres
            · exact Or.inr (hnewNotSeen p hnew)
          · exact Or.inr (fun hs => hns (List.mem_append.mpr (Or.inl hs)))
        | false =>
          rw [get_notion_data_merge_last stub n cursor res pc seen resp hc
            hemp hmore] at hr
          cases hr
          intro p hp
          rcases List.mem_append.mp hp with hres | hnew
          · exact Or.inl hres
          · exact Or.inr (hnewNotSeen p hnew)

/-- Unfolding: the outer loop with zero fuel. -/
theorem gv_loop_zero (stub : Option κ → Option (QueryResponse ι κ))
    (iF : Nat) (cursor : Option κ) (acc : List (Page ι)) (total : Nat)
    (seen : List ι) (lt : Nat) :
    generate_visualization_loop stub iF 0 cursor acc total seen lt =
      (none, []) := rfl

/-- Unfolding: the outer loop when the page limit is already met. -/
theorem gv_loop_done (stub : Option κ → Option (QueryResponse ι κ))
    (iF n : Nat) (cursor : Option κ) (acc : List (Page ι)) (total : Nat)
    (seen : List ι) (lt : Nat) (h : ¬ total < page_limit) :
    generate_visualization_loop stub iF (n + 1) cursor acc total seen lt =
      (some ⟨acc, total, seen, cursor⟩, []) := by
  simp only [generate_visualization_loop, if_neg h]

/-- Unfolding: the outer loop when the inner loop diverges. -/
theorem gv_loop_inner_div (stub : Option κ → Option (QueryResponse ι κ))
    (iF n : Nat) (cursor : Option κ) (acc : List (Page ι)) (total : Nat)
    (seen : List ι) (lt : Nat)
    (tr : List (Checkpoint ι κ × List (Page ι)))
    (h : total < page_limit)
    (hg : get_notion_data stub iF cursor [] total seen = (none, tr)) :
    generate_visualization_loop stub iF (n + 1) cursor acc total seen lt =
      (none, tr.map (fun e => (e.1, acc ++ e.2))) := by
  simp only [generate_visualization_loop, if_pos h, hg]

/-- Unfolding: the outer loop's stagnation break. -/
theorem gv_loop_stagnant (stub : Option κ → Option (QueryResponse ι κ))
    (iF n : Nat) (cursor : Option κ) (acc : List (Page ι)) (total : Nat)
    (seen : List ι) (lt : Nat) (r : GndResult ι κ)
    (tr : List (Checkpoint ι κ × List (Page ι)))
    (h : total < page_limit)
    (hg : get_notion_data stub iF cursor [] total seen = (some r, tr))
    (heq : r.total_retrieved = lt) :
    generate_visualization_loop stub iF (n + 1) cursor acc total seen lt =
      (some ⟨acc ++ r.results, r.total_retrieved, r.queried_page_ids,
        r.start_cursor⟩, tr.map (fun e => (e.1, acc ++ e.2))) := by
  simp only [generate_visualization_loop, if_pos h, hg]
  rw [if_pos heq]

/-- Unfolding: the outer loop's cursor-gone or page-limit break. -/
theorem gv_loop_break (stub : Option κ → Option (QueryResponse ι κ))
    (iF n : Nat) (cursor : Option κ) (acc : List (Page ι)) (total : Nat)
    (seen : List ι) (lt : Nat) (r : GndResult ι κ)
    (tr : List (Checkpoint ι κ × List (Page ι)))
    (h : total < page_limit)
    (hg : get_notion_data stub iF cursor [] total seen = (some r, tr))
    (hne : ¬ r.total_retrieved = lt)
    (hstop : r.start_cursor.isNone = true ∨ page_limit ≤ r.total_retrieved) :
    generate_visualization_loop stub iF (n + 1) cursor acc total seen lt =
      (some ⟨acc ++ r.results, r.total_retrieved, r.queried_page_ids,
        r.start_cursor⟩,
       tr.map (fun e => (e.1, acc ++ e.2)) ++
        [(⟨r.start_cursor, r.total_retrieved, r.queried_page_ids⟩,
          acc ++ r.results)]) := by
  simp only [generate_visualization_loop, if_pos h, hg]
  rw [if_neg hne, if_pos hstop]

/-- Unfolding: the outer loop's continuing iteration. -/
theorem gv_loop_continue (stub : Option κ → Option (QueryResponse ι κ))
    (iF n : Nat) (cursor : Option κ) (acc : List (Page ι)) (total : Nat)
    (seen : List ι) (lt : Nat) (r : GndResult ι κ)
    (tr : List (Checkpoint ι κ × List (Page ι)))
    (h : total < page_limit)
    (hg : get_notion_data stub iF cursor [] total seen = (some r, tr))
    (hne : ¬ r.total_retrieved = lt)
    (hcont : ¬ (r.start_cursor.isNone = true ∨
      page_limit ≤ r.total_retrieved)) :
    generate_visualization_loop stub iF (n + 1) cursor acc total seen lt =
      ((generate_visualization_loop stub iF n r.start_cursor
          (acc ++ r.results) r.total_retrieved r.queried_page_ids
          r.total_retrieved).1,
       tr.map (fun e => (e.1, acc ++ e.2)) ++
        [(⟨r.start_cursor, r.total_retrieved, r.queried_page_ids⟩,
          acc ++ r.results)] ++
        (generate_visualization_loop stub iF n r.start_cursor
          (acc ++ r.results) r.total_retrieved r.queried_page_ids
          r.total_retrieved).2) := by
  simp only [generate_visualization_loop, if_pos h, hg]
  rw [if_neg hne, if_neg hcont]

/-- Records accumulated by the outer loop beyond its starting accumulator
never carry an id from `S` when `S` is contained in the starting seen set. -/
theorem gv_results_new (stub : Option κ → Option (QueryResponse ι κ))
    (innerFuel : Nat) :
    ∀ (outerFuel : Nat) (cursor : Option κ) (acc : List (Page ι))
      (total : Nat) (seen : List ι) (lastTotal : Nat) (S : List ι)
      (g : GvResult ι κ),
      (∀ i ∈ S, i ∈ seen) →
      (generate_visualization_loop stub innerFuel outerFuel cursor acc total
        seen lastTotal).1 = some g →
      ∀ p ∈ g.all_results, p ∈ acc ∨ ¬ p.id ∈ S := by
  intro outerFuel
  induction outerFuel with
  | zero =>
    intro cursor acc total seen lastTotal S g hS hr
    cases hr
  | succ n ih =>
    intro cursor acc total seen lastTotal S g hS hr
    by_cases h : total < page_limit
    · rcases hgnd : get_notion_data stub innerFuel cursor [] total seen with
        ⟨ropt, tr⟩
      cases ropt with
      | none =>
        rw [gv_loop_inner_div stub innerFuel n cursor acc total seen
          lastTotal tr h hgnd] at hr
        cases hr
      | some r =>
        have hfresh := gnd_results_new stub innerFuel cursor [] total seen r
          (by rw [hgnd])
        have hmono := gnd_seen_mono stub innerFuel cursor [] total seen r
          (by rw [hgnd])
        have hnewS : ∀ p ∈ r.results, ¬ p.id ∈ S := by
          intro p hp
          rcases hfresh p hp with h0 | hns
          · exact absurd h0 (List.not_mem_nil p)
          · exact fun hin => hns (hS _ hin)
        by_cases heq : r.total_retrieved = lastTotal
        · rw [gv_loop_stagnant stub innerFuel n cursor acc total seen
            lastTotal r tr h hgnd heq] at hr
          cases hr
          intro p hp
          rcases List.mem_append.mp hp with h1 | h2
          · exact Or.inl h1
          · exact Or.inr (hnewS p h2)
        · by_cases hstop : r.start_cursor.isNone = true ∨
            page_limit ≤ r.total_retrieved
          · rw [gv_loop_break stub innerFuel n cursor acc total seen
              lastTotal r tr h hgnd heq hstop] at hr
            cases hr
            intro p hp
            rcases List.mem_append.mp hp with h1 | h2
            · exact Or.inl h1
            · exact Or.inr (hnewS p h2)
          · rw [gv_loop_continue stub innerFuel n cursor acc total seen
              lastTotal r tr h hgnd heq hstop] at hr
            have hrec := ih r.start_cursor (acc ++ r.results)
              r.total_retrieved r.queried_page_ids r.total_retrieved S g
              (fun i hi => hmono i (hS i hi)) hr
            intro p hp
            rcases hrec p hp with h1 | h2
            · rcases List.mem_append.mp h1 with ha | hb
              · exact Or.inl ha
              · exact Or.inr (hnewS p hb)
            · exact Or.inr h2
    · rw [gv_loop_done stub innerFuel n cursor acc total seen lastTotal h]
        at hr
      cases hr
      intro p hp
      exact Or.inl hp

/-- Claim C6 (amended): a Paginator run resumed from a checkpoint (the
resuming revision of `generate_visualization`) fetches only the remaining
records — no record of its final record set carries an id from the
checkpoint's `queried_page_ids`.  The records merged before the interruption
are not re-materialised from the checkpoint (it stores ids only), so the
resumed run's final record set equals the remaining records, not the
uninterrupted run's full set. -/
theorem resume_yields_only_new_records
    (stub : Option κ → Option (QueryResponse ι κ))
    (innerFuel outerFuel : Nat) (ck : Checkpoint ι κ) (g : GvResult ι κ)
    (h : (generate_visualization_resume stub innerFuel outerFuel ck).1 =
      some g) :
    ∀ p ∈ g.all_results, ¬ p.id ∈ ck.queried_page_ids := by
  have := gv_results_new stub innerFuel outerFuel ck.start_cursor []
    ck.total_retrieved ck.queried_page_ids 0 ck.queried_page_ids g
    (fun i hi => hi) h
  intro p hp
  rcases this p hp with h0 | h1
  · exact absurd h0 (List.not_mem_nil p)
  · exact h1

/-- Witness for `resume_yields_only_new_records`: resuming against
`c6_stub` from the checkpoint written after its first page completes and
yields the record with id 6, whose id is outside the checkpoint's id set. -/
theorem resume_yields_only_new_records_witness :
    ¬ (⟨6⟩ : Page Nat).id ∈
      (⟨some 11, 5, [1, 2, 3, 4, 5]⟩ : Checkpoint Nat Nat).queried_page_ids :=
  resume_yields_only_new_records c6_stub 10 10 ⟨some 11, 5, [1, 2, 3, 4, 5]⟩
    ⟨[⟨6⟩, ⟨7⟩, ⟨8⟩, ⟨9⟩, ⟨10⟩], 10, [1, 2, 3, 4, 5, 6, 7, 8, 9, 10], none⟩
    (by decide) ⟨6⟩ (by decide)

/-- Counterexample to claim C6 as stated: against `c6_stub`, the
uninterrupted run's final record set holds all ten records; resuming from
the checkpoint the run wrote after its first page (cursor 11, five
retrieved, ids 1-5) completes with the same final count and id set but a
final record set of only the five remaining records — not the same record
set. -/
theorem resumability_counterexample :
    (generate_visualization c6_stub 10 10).1 =
      some ⟨[⟨1⟩, ⟨2⟩, ⟨3⟩, ⟨4⟩, ⟨5⟩, ⟨6⟩, ⟨7⟩, ⟨8⟩, ⟨9⟩, ⟨10⟩], 10,
        [1, 2, 3, 4, 5, 6, 7, 8, 9, 10], none⟩ ∧
    ((generate_visualization c6_stub 10 10).2.map Prod.fst).head? =
      some ⟨some 11, 5, [1, 2, 3, 4, 5]⟩ ∧
    (generate_visualization_resume c6_stub 10 10
        ⟨some 11, 5, [1, 2, 3, 4, 5]⟩).1 =
      some ⟨[⟨6⟩, ⟨7⟩, ⟨8⟩, ⟨9⟩, ⟨10⟩], 10,
        [1, 2, 3, 4, 5, 6, 7, 8, 9, 10], none⟩ ∧
    ([⟨6⟩, ⟨7⟩, ⟨8⟩, ⟨9⟩, ⟨10⟩] : List (Page Nat)) ≠
      [⟨1⟩, ⟨2⟩, ⟨3⟩, ⟨4⟩, ⟨5⟩, ⟨6⟩, ⟨7⟩, ⟨8⟩, ⟨9⟩, ⟨10⟩] := by
  exact ⟨rfl, rfl, rfl, by decide⟩

/-! ### Claim C10 -/

/-- Claim C10 (amended): `get_page_name` yields the parent's title only when
that title's first text contains a star; a failed fetch and the guarded
malformed shapes (no properties, no `Name`) yield the sentinel `Unknown`
(an empty or absent `title` array instead raises); and records whose parents
resolve to starless titles are all folded into the single `Unknown` bucket —
each contributing the stale measure of the batch's last record, not its
own. -/
theorem get_page_name_unknown_sentinel (t1 t2 : String) (m1 m2 : Int)
    (h1 : t1.data.contains '*' = false)
    (h2 : t2.data.contains '*' = false) :
    get_page_name none = .ok "Unknown" ∧
    get_page_name (some PageData.noProperties) = .ok "Unknown" ∧
    get_page_name (some PageData.noName) = .ok "Unknown" ∧
    (∀ (t : String) (rest : List String),
      get_page_name (some (PageData.titled (t :: rest))) =
        if t.data.contains '*' then .ok t else .ok "Unknown") ∧
    process_data
      (fun pid => if pid == "p1" then some (PageData.titled [t1])
        else some (PageData.titled [t2]))
      [⟨"r1", "r1", some "p1", m1⟩, ⟨"r2", "r2", some "p2", m2⟩] =
      .ok [("Unknown", m2 + m2)] := by
  refine ⟨rfl, rfl, rfl, fun t rest => rfl, ?_⟩
  have h1' : ¬ '*' ∈ t1.data := by simpa using h1
  have h2' : ¬ '*' ∈ t2.data := by simpa using h2
  simp [process_data, processPass1, gatherNames, get_page_name, h1', h2',
    lastTotalMins, processPass2, dictAdd, sortDesc, insertDesc, Except.map]

/-- Witness for `get_page_name_unknown_sentinel` at the concrete starless
titles `Category A` and `Category B` with measures 10 and 3. -/
theorem get_page_name_unknown_sentinel_witness :
    get_page_name none = .ok "Unknown" ∧
    process_data c10_lookup c10_records = .ok [("Unknown", 3 + 3)] := by
  have h := get_page_name_unknown_sentinel "Category A" "Category B" 10 3
    (by decide) (by decide)
  exact ⟨h.1, h.2.2.2.2⟩

/-- Counterexample to claim C10 as stated: two records with measures 10 and
3 and distinct starless parent categories both resolve to `Unknown`, but the
bucket totals 6 (twice the last record's measure), not the sum 13 of the
records' own measures. -/
theorem unknown_bucket_measure_counterexample :
    process_data c10_lookup c10_records = .ok [("Unknown", 6)] ∧
    (6 : Int) ≠ 10 + 3 := by
  exact ⟨rfl, by decide⟩

end StreamlitDemo
